import Mathlib

/-!
Shallow embedding of the AI-job-coach agent service core
(`src/agent/src/agent_service/...`) and verification of the frozen claims
about it.  Python floats are modelled as rationals (`ℚ`), machine strings as
Lean `String`, fallible operations as `Except`/`Option`.  External library
calls (`json.loads`, `hashlib.md5`, the network LLM providers) are modelled
as explicit function parameters of the embedded operations.
-/

namespace JobCoach

/-! ### Python string primitives

`pyLower` models `str.lower()` (adequate for the ASCII data these claims
quantify over), `strIn` models the Python substring test `needle in hay`,
`pyStrip` models `str.strip()` with no arguments (trim whitespace at both
ends), `pySplitWs` models `str.split()` with no arguments (split on
whitespace runs, dropping empty pieces). -/

def pyLower (s : String) : String := String.mk (s.toList.map Char.toLower)

/-- Python's builtin `min` on two numbers, kept as an executable conditional
(it agrees with Mathlib's lattice `min`, see `pymin_eq_min`). -/
def pymin (a b : ℚ) : ℚ := if a ≤ b then a else b

theorem pymin_eq_min (a b : ℚ) : pymin a b = min a b := (min_def a b).symm

def strInAux (needle : List Char) : List Char → Bool
  | [] => needle.isEmpty
  | c :: rest => needle.isPrefixOf (c :: rest) || strInAux needle rest

def strIn (needle hay : String) : Bool := strInAux needle.toList hay.toList

def pyStrip (s : String) : String :=
  String.mk (((s.toList.dropWhile Char.isWhitespace).reverse.dropWhile
    Char.isWhitespace).reverse)

def pySplitWs (s : String) : List String :=
  ((s.toList.splitOnP Char.isWhitespace).map String.mk).filter (· ≠ "")

/-- `str.lstrip(chars)`: drop leading characters belonging to `chars`. -/
def pyLStrip (chars : List Char) (s : String) : String :=
  String.mk (s.toList.dropWhile (fun c => chars.contains c))

/-- Python renders `None` as the string `"None"` inside an f-string and an
`Optional[str]` value as itself. -/
def pyShowOpt : Option String → String
  | none => "None"
  | some s => s

/-! ### Domain model (`domain/models.py`)

`datetime` fields (`created_at`, `updated_at`, `analyzed_at`) and the
uuid-defaulted `id` of derived artifacts are not involved in any claim and
are omitted; all other fields are kept. -/

structure PersonalInfo where
  name : Option String := none
  email : Option String := none
  phone : Option String := none
  linkedin : Option String := none
  github : Option String := none
deriving Repr, DecidableEq

structure BulletPoint where
  id : String := ""
  text : String := ""
  keywords : List String := []
  skills_used : List String := []
deriving Repr, DecidableEq

structure Experience where
  id : String := ""
  company : Option String := none
  title : Option String := none
  location : Option String := none
  start_date : Option String := none
  end_date : Option String := none
  description : Option String := none
  bullets : List BulletPoint := []
  skills_used : List String := []
  industry : Option String := none
deriving Repr, DecidableEq

structure Education where
  id : String := ""
  school : Option String := none
  degree : Option String := none
  start_date : Option String := none
  end_date : Option String := none
  description : Option String := none
deriving Repr, DecidableEq

structure Skill where
  name : Option String := none
  category : Option String := none
deriving Repr, DecidableEq

structure MasterResume where
  id : String := ""
  user_id : Option String := none
  personal_info : Option PersonalInfo := none
  experiences : List Experience := []
  education : List Education := []
  skills : List Skill := []
deriving Repr, DecidableEq

structure KeywordWeight where
  text : String
  weight : ℚ
  category : String
deriving Repr, DecidableEq

structure JobDescription where
  id : String := ""
  raw_text : String := ""
  company : Option String := none
  position : Option String := none
  required_skills : List String := []
  preferred_skills : List String := []
  responsibilities : List String := []
  qualifications : List String := []
  industry : Option String := none
  keywords : List KeywordWeight := []
deriving Repr, DecidableEq

structure BulletOptimization where
  bullet_id : String
  original_text : String
  optimized_text : String
  improvements : List String := []
  keyword_matches : List String := []
  status : String := "pending"
deriving Repr, DecidableEq

structure TailoredResume where
  master_resume_id : String := ""
  jd_id : String := ""
  personal_info : Option PersonalInfo := none
  selected_experience_ids : List String := []
  selected_bullet_optimizations : List BulletOptimization := []
  selected_education_ids : List String := []
  selected_skills : List String := []
  match_score : ℚ := 0
  ats_score : ℚ := 0
deriving Repr, DecidableEq

/-! ### Content selector (`infra/matching/content_selector.py`) -/

/-- `ContentSelector._has_metrics`: `re.search` of each quantification
pattern, i.e. some position of the text starts a match of
`\d+%`, `\$\d+`, `\d+[xX]`, `\d+\+`, `\d+[KkMmBb]` or
`\d+\s*(users|customers|requests|transactions)`.  A `\d+…` pattern matches
somewhere iff some digit is immediately followed by the pattern's tail. -/
def metricUnitWords : List String :=
  ["users", "customers", "requests", "transactions"]

def hasMetricsFrom : List Char → Bool
  | [] => false
  | c :: rest =>
    (c == '$' && (match rest with | d :: _ => d.isDigit | [] => false))
    || (c.isDigit &&
         ((match rest with
           | d :: _ =>
             d == '%' || d == 'x' || d == 'X' || d == '+' ||
               ['K', 'k', 'M', 'm', 'B', 'b'].contains d
           | [] => false)
          || metricUnitWords.any (fun w =>
               w.toList.isPrefixOf (rest.dropWhile Char.isWhitespace))))
    || hasMetricsFrom rest

def has_metrics (text : String) : Bool := hasMetricsFrom text.toList

/-- `ContentSelector._score_experience`. -/
def score_experience (e : Experience) (jd : JobDescription) : ℚ :=
  -- 1. Skill matching (40 points)
  let score1 : ℚ :=
    if e.skills_used.isEmpty then 0 else
      let jd_skills : Finset String :=
        ((jd.required_skills ++ jd.preferred_skills).map pyLower).toFinset
      let exp_skills : Finset String := (e.skills_used.map pyLower).toFinset
      if jd_skills = ∅ then 0
      else (((exp_skills ∩ jd_skills).card : ℚ) / jd_skills.card) * 40
  -- 2. Keyword matching in bullets (30 points); `jd_keywords` is a list, so
  -- duplicate keyword texts are counted once per occurrence per bullet.
  let jd_keywords := jd.keywords.map (fun kw => pyLower kw.text)
  let keyword_matches : ℕ :=
    (e.bullets.map (fun b =>
      (jd_keywords.filter (fun k => strIn k (pyLower b.text))).length)).sum
  let score2 : ℚ :=
    if jd_keywords.isEmpty || e.bullets.isEmpty then 0 else
      pymin (((keyword_matches : ℚ) /
        ((jd_keywords.length : ℚ) * (e.bullets.length : ℚ))) * 100) 30
  -- 3. Industry matching (15 points); Python truthiness: `None` and `""` both
  -- skip the comparison.
  let score3 : ℚ :=
    match e.industry, jd.industry with
    | some ei, some ji =>
      if ei = "" || ji = "" then 0
      else if pyLower ei = pyLower ji then 15
      else if strIn (pyLower ji) (pyLower ei) then 10
      else 0
    | _, _ => 0
  -- 4. Responsibility relevance (15 points)
  let score4 : ℚ :=
    if jd.responsibilities.isEmpty || e.bullets.isEmpty then 0 else
      let resp_matches : ℕ :=
        (jd.responsibilities.filter (fun resp =>
          e.bullets.any (fun b =>
            ((pySplitWs (pyLower resp)).take 3).any (fun w =>
              strIn w (pyLower b.text))))).length
      ((resp_matches : ℚ) / (jd.responsibilities.length : ℚ)) * 15
  score1 + score2 + score3 + score4

/-- `ContentSelector._score_bullet`. -/
def score_bullet (b : BulletPoint) (jd : JobDescription) : ℚ :=
  let kw_score : ℚ :=
    (jd.keywords.map (fun kw =>
      if strIn (pyLower kw.text) (pyLower b.text) then
        if kw.weight ≥ 0.8 then 50 * kw.weight
        else if kw.weight ≥ 0.6 then 30 * kw.weight
        else 10 * kw.weight
      else 0)).sum
  kw_score + (if has_metrics b.text then 20 else 0)

/-- One step of Python's stable sort in descending order of the score
component (`list.sort(key=lambda x: x[1], reverse=True)`): insert `x` in
front of the first element whose score is not greater, so that an element
never moves past an equal-scored element that preceded it. -/
def insertDesc {α : Type} (x : α × ℚ) : List (α × ℚ) → List (α × ℚ)
  | [] => [x]
  | y :: ys => if x.2 < y.2 then y :: insertDesc x ys else x :: y :: ys

def sortDesc {α : Type} : List (α × ℚ) → List (α × ℚ)
  | [] => []
  | x :: xs => insertDesc x (sortDesc xs)

/-- `ContentSelector._select_bullets`. -/
def select_bullets (e : Experience) (jd : JobDescription) (max_bullets : ℕ) :
    List BulletPoint :=
  if e.bullets.isEmpty then [] else
    ((sortDesc (e.bullets.map (fun b => (b, score_bullet b jd)))).map
      Prod.fst).take max_bullets

/-- `ContentSelector.select_content`.  The Python dict
`experience_id -> bullets` is modelled as the association list built in
selection order. -/
def select_content (m : MasterResume) (jd : JobDescription)
    (max_experiences max_bullets_per_exp : ℕ) :
    List Experience × List (String × List BulletPoint) :=
  let exp_scores := m.experiences.map (fun e => (e, score_experience e jd))
  let selected_exps := ((sortDesc exp_scores).map Prod.fst).take max_experiences
  (selected_exps,
   selected_exps.map (fun e => (e.id, select_bullets e jd max_bullets_per_exp)))

/-- The distinct lowercased JD keyword texts
(`set([kw.text.lower() for kw in jd.keywords])`). -/
def jdKeywordSet (jd : JobDescription) : Finset String :=
  (jd.keywords.map (fun kw => pyLower kw.text)).toFinset

/-- The `found_keywords` set accumulated by the loops of
`ContentSelector.calculate_match_score`: per selected experience, the skills
loop inserts `skill.lower()` whenever it is a member of the keyword set, and
the bullets loop inserts every keyword that occurs as a substring of the
lowercased bullet text (iterating the Python set `jd_keywords` inserts
exactly the members passing the substring test). -/
def foundKeywords (selected : List Experience) (jd_kws : Finset String) :
    Finset String :=
  selected.foldl (fun acc e =>
    let acc1 := acc ∪ ((e.skills_used.map pyLower).toFinset ∩ jd_kws)
    e.bullets.foldl (fun a b =>
      a ∪ jd_kws.filter (fun k => strIn k (pyLower b.text))) acc1) ∅

/-- `ContentSelector.calculate_match_score`. -/
def calculate_match_score (m : MasterResume) (jd : JobDescription)
    (selected_exp_ids : List String) : ℚ :=
  if jd.keywords.isEmpty then 50 else
    let selected := m.experiences.filter (fun e => selected_exp_ids.contains e.id)
    let jd_kws := jdKeywordSet jd
    let found := foundKeywords selected jd_kws
    let match_score : ℚ :=
      if jd_kws = ∅ then 50 else ((found.card : ℚ) / jd_kws.card) * 100
    pymin match_score 100

/-! ### Bullet optimizer (`infra/nlp/bullet_optimizer.py`)

The generation provider port (`LlmProviderPort.generate_text(prompt,
system_prompt, temperature, max_tokens)`) is modelled as a function
parameter; a raised exception is an `Except.error`. -/

def LlmGen : Type :=
  String → Option String → ℚ → ℕ → Except String String

def optimizeSystemPrompt : String :=
  "You are a professional resume writer specializing in ATS-optimized resumes.\nYour task is to rewrite bullet points to be more impactful and keyword-rich."

/-- The f-string prompt assembled by `BulletOptimizer._generate_optimized_text`. -/
def mkOptimizePrompt (original_text : String) (keywords : List String)
    (context : String) : String :=
  let context_str := if context ≠ "" then "\n\nContext: " ++ context else ""
  "Rewrite this resume bullet point to make it more impactful and ATS-friendly.\n\nOriginal bullet:\n"
    ++ original_text ++ "\n" ++ context_str
    ++ "\n\nTarget keywords to naturally incorporate (if relevant):\n"
    ++ String.intercalate ", " (keywords.take 10)
    ++ "\n\nRequirements:\n1. Use STAR framework when possible (Situation, Task, Action, Result)\n2. Include quantifiable metrics if not already present (estimate if needed)\n3. Start with a strong action verb\n4. Naturally incorporate 2-3 relevant keywords from the list\n5. Keep it concise: 1-2 lines maximum (under 95 characters per line)\n6. Make the impact clear and specific\n7. DO NOT fabricate information - only enhance what\x27s already there\n\nReturn ONLY the optimized bullet point, no explanations."

/-- The literal character set of `optimized.lstrip('â€¢-*')` (the source file
holds the three mojibake characters of a UTF-8 bullet glyph read as
Latin-1, plus a dash and an asterisk). -/
def lstripBulletChars : List Char := ['â', '€', '¢', '-', '*']

/-- `BulletOptimizer._generate_optimized_text`: on success the response is
stripped and has leading bullet glyph characters removed; on any generation
failure the original text is returned verbatim. -/
def generate_optimized_text (llm : LlmGen) (original_text : String)
    (keywords : List String) (context : String) : String :=
  match llm (mkOptimizePrompt original_text keywords context)
      (some optimizeSystemPrompt) 0.7 200 with
  | .ok optimized => pyStrip (pyLStrip lstripBulletChars (pyStrip optimized))
  | .error _ => original_text

def strongVerbs : List String :=
  ["spearheaded", "architected", "engineered", "orchestrated",
   "pioneered", "transformed", "optimized", "accelerated",
   "championed", "streamlined", "revolutionized"]

def hasDigit (s : String) : Bool := s.toList.any Char.isDigit

/-- `BulletOptimizer._identify_improvements`. -/
def identify_improvements (original optimized : String)
    (keywords : List String) : List String :=
  let imp1 : List String :=
    if !hasDigit original && hasDigit optimized
    then ["Added quantifiable metrics"] else []
  let new_keywords := keywords.filter (fun kw =>
    !strIn (pyLower kw) (pyLower original) && strIn (pyLower kw) (pyLower optimized))
  let imp2 : List String :=
    if !new_keywords.isEmpty
    then ["Added keywords: " ++ String.intercalate ", " (new_keywords.take 3)]
    else []
  let imp3 : List String :=
    if strongVerbs.any (fun v => strIn v (pyLower optimized))
    then ["Used stronger action verb"] else []
  let imp4 : List String :=
    if (optimized.length : ℚ) > (original.length : ℚ) * 1.2
    then ["Added more specific details"] else []
  let improvements := imp1 ++ imp2 ++ imp3 ++ imp4
  if improvements.isEmpty then ["Enhanced clarity and impact"] else improvements

/-- The optimization-target keywords:
`[kw.text for kw in jd.keywords[:15] if kw.weight >= 0.6]`. -/
def topKeywords (jd : JobDescription) : List String :=
  ((jd.keywords.take 15).filter (fun kw => kw.weight ≥ 0.6)).map (·.text)

/-- `BulletOptimizer.optimize_bullet`. -/
def optimize_bullet (llm : LlmGen) (b : BulletPoint) (jd : JobDescription)
    (experience_context : String) : BulletOptimization :=
  let top_keywords := topKeywords jd
  let optimized_text :=
    generate_optimized_text llm b.text top_keywords experience_context
  let improvements := identify_improvements b.text optimized_text top_keywords
  let keyword_matches := top_keywords.filter (fun kw =>
    strIn (pyLower kw) (pyLower optimized_text))
  { bullet_id := b.id
    original_text := b.text
    optimized_text := optimized_text
    improvements := improvements
    keyword_matches := keyword_matches
    status := "pending" }

/-- `BulletOptimizer.optimize_multiple_bullets`. -/
def optimize_multiple_bullets (llm : LlmGen) (bullets : List BulletPoint)
    (jd : JobDescription) (experience_context : String) :
    List BulletOptimization :=
  bullets.map (fun b => optimize_bullet llm b jd experience_context)

/-! ### LLM manager (`infra/llm/llm_manager.py`)

A provider's `generate_text` is a function of the request; the manager's
mutable fields (`current_provider`, `current_provider_name`) form an
explicit state.  `fallback_provider` is kept as a plain provider (in the
source it is `None` exactly when `enable_fallback` is false, and every use
is guarded by `enable_fallback`).  `retry_delay`/`asyncio.sleep` only
suspends and is not modelled. -/

structure GenRequest where
  prompt : String
  system_prompt : Option String := none
  temperature : ℚ := 0.7
  max_tokens : ℕ := 1000

def Provider : Type := GenRequest → Except String String

structure LLMManager where
  primary_provider : Provider
  fallback_provider : Provider
  primary_provider_name : String
  fallback_provider_name : String
  enable_fallback : Bool
  max_retries : ℕ

structure MgrState where
  current_provider : Provider
  current_provider_name : String

/-- The state of a freshly constructed manager (`__init__` sets
`current_provider = primary_provider`). -/
def initState (mgr : LLMManager) : MgrState :=
  { current_provider := mgr.primary_provider
    current_provider_name := mgr.primary_provider_name }

structure GenOutcome where
  result : Except String String
  state : MgrState
  /-- calls made to the provider that was active when `generate_text` was
  entered (the retry loop always calls `self.current_provider`, which only
  changes in the branch that immediately returns). -/
  activeCalls : ℕ
  /-- calls made to the fallback provider by the failover branch. -/
  fallbackCalls : ℕ

/-- The `for attempt in range(self.max_retries)` loop of
`LLMManager.generate_text`; `remaining` counts the iterations left,
`made` the calls already made in this loop. -/
def generateLoop (mgr : LLMManager) (st : MgrState) (req : GenRequest) :
    ℕ → ℕ → GenOutcome
  | 0, made =>
    { result := .error "LLM generation failed: max retries exceeded"
      state := st, activeCalls := made, fallbackCalls := 0 }
  | remaining + 1, made =>
    match st.current_provider req with
    | .ok r =>
      { result := .ok r, state := st, activeCalls := made + 1, fallbackCalls := 0 }
    | .error e =>
      if remaining = 0 then
        -- last retry: fail over if enabled and still on the primary
        if mgr.enable_fallback ∧
            st.current_provider_name = mgr.primary_provider_name then
          let st' : MgrState :=
            { current_provider := mgr.fallback_provider
              current_provider_name := mgr.fallback_provider_name }
          match mgr.fallback_provider req with
          | .ok r =>
            { result := .ok r, state := st', activeCalls := made + 1,
              fallbackCalls := 1 }
          | .error fe =>
            { result := .error ("Both primary and fallback providers failed. Primary error: " ++ e ++ ", Fallback error: " ++ fe)
              state := st', activeCalls := made + 1, fallbackCalls := 1 }
        else
          { result := .error ("LLM generation failed after retries: " ++ e)
            state := st, activeCalls := made + 1, fallbackCalls := 0 }
      else generateLoop mgr st req remaining (made + 1)

/-- `LLMManager.generate_text`. -/
def manager_generate_text (mgr : LLMManager) (st : MgrState)
    (req : GenRequest) : GenOutcome :=
  generateLoop mgr st req mgr.max_retries 0

/-- `LLMManager.reset_to_primary`. -/
def reset_to_primary (mgr : LLMManager) (_st : MgrState) : MgrState :=
  initState mgr

/-- `LLMManager.get_current_provider`. -/
def get_current_provider (st : MgrState) : String :=
  st.current_provider_name

/-! ### Tailor resume use case (`application/use_cases/tailor_resume.py`) -/

/-- `TailorResumeUseCase._calculate_ats_score`. -/
def calc_ats_score (match_score : ℚ) (optimizations : List BulletOptimization) :
    ℚ :=
  let base := match_score * 0.6
  let withMetrics :=
    if optimizations.isEmpty then base else
      let metrics_count : ℕ :=
        (optimizations.filter (fun opt => opt.improvements.any (fun imp =>
          strIn "metric" (pyLower imp) || strIn "quantif" (pyLower imp)))).length
      base + ((metrics_count : ℚ) / (optimizations.length : ℚ)) * 20
  let withKeywords :=
    if optimizations.isEmpty then withMetrics else
      let avg_keywords : ℚ :=
        ((optimizations.map (fun opt => (opt.keyword_matches.length : ℚ))).sum) /
          (optimizations.length : ℚ)
      withMetrics + pymin ((avg_keywords / 3) * 20) 20
  pymin withKeywords 100

/-- `TailorResumeUseCase._select_skills`. -/
def select_skills (m : MasterResume) (jd : JobDescription) : List String :=
  let jd_skills : Finset String :=
    ((jd.required_skills ++ jd.preferred_skills).map pyLower).toFinset
  -- `[skill.name for skill in master_resume.skills if skill.name]`
  let resume_skills := (m.skills.filterMap (·.name)).filter (· ≠ "")
  let matched := resume_skills.filter (fun s => pyLower s ∈ jd_skills)
  let unmatched := resume_skills.filter (fun s => pyLower s ∉ jd_skills)
  let selected := matched.take 15
  selected ++ unmatched.take (15 - selected.length)

/-- The experience context label `f"{exp.title} at {exp.company}"`. -/
def expContext (e : Experience) : String :=
  pyShowOpt e.title ++ " at " ++ pyShowOpt e.company

/-- The (context, bullet) pairs for which `TailorResumeUseCase.execute` calls
`optimize_bullet`: for each selected experience in rank order, its selected
bullets in rank order (`selected_bullets_map.get(exp.id, [])`; an empty
bullet list contributes no calls either way). -/
def tailor_selected_pairs (m : MasterResume) (jd : JobDescription) :
    List (String × BulletPoint) :=
  let sc := select_content m jd 4 4
  sc.1.flatMap (fun e =>
    ((((sc.2.find? (fun p => p.1 = e.id)).map (·.2)).getD []).map
      (fun b => (expContext e, b))))

structure TailorOut where
  resume : TailoredResume
  /-- the prompts handed to the generation provider, in call order. -/
  prompts : List String

/-- `TailorResumeUseCase.execute` (timestamps and the uuid id omitted),
instrumented with the list of generation prompts issued. -/
def tailor_execute (llm : LlmGen) (m : MasterResume) (jd : JobDescription) :
    TailorOut :=
  let pairs := tailor_selected_pairs m jd
  let all_optimizations :=
    pairs.map (fun p => optimize_bullet llm p.2 jd p.1)
  let selected_exp_ids := (select_content m jd 4 4).1.map (·.id)
  let match_score := calculate_match_score m jd selected_exp_ids
  let ats_score := calc_ats_score match_score all_optimizations
  { resume :=
    { master_resume_id := m.id
      jd_id := jd.id
      personal_info := m.personal_info
      selected_experience_ids := selected_exp_ids
      selected_bullet_optimizations := all_optimizations
      selected_education_ids := (m.education.take 2).map (·.id)
      selected_skills := select_skills m jd
      match_score := match_score
      ats_score := ats_score }
    prompts :=
      pairs.map (fun p => mkOptimizePrompt p.2.text (topKeywords jd) p.1) }

/-! ### JD analyzer (`infra/nlp/jd_analyzer.py`)

The value returned by `json.loads` (after the code-fence stripping
`re.sub(r'```json\s*|\s*```', '', response)`) is modelled as `Option Json`:
`none` when `json.loads` raises `JSONDecodeError`, `some v` for the parsed
value.  Python runtime errors raised while consuming that value
(`AttributeError` from `.get` on a non-dict, `KeyError` from a missing
mandatory key, `TypeError` from an unexpected shape) are `PyErr` values;
none of these is caught anywhere in the analyzer.  A failure of the
generation call itself is re-raised unchanged (`except Exception: raise`)
and is outside the paths the claims quantify over. -/

inductive Json where
  | null
  | str (s : String)
  | num (q : ℚ)
  | bool (b : Bool)
  | arr (elems : List Json)
  | obj (fields : List (String × Json))
deriving Repr

inductive PyErr where
  | attributeError (msg : String)
  | keyError (msg : String)
  | typeError (msg : String)
deriving Repr, DecidableEq

/-- `d.get(key)` — `None` when absent, `AttributeError` when `d` is not a
dict. -/
def jsonGet (j : Json) (key : String) : Except PyErr (Option Json) :=
  match j with
  | .obj fields => .ok ((fields.find? (fun p => p.1 = key)).map (·.2))
  | _ => .error (.attributeError "object has no attribute get")

/-- `d[key]` — `KeyError` when absent. -/
def jsonIndex (j : Json) (key : String) : Except PyErr Json :=
  match j with
  | .obj fields =>
    match fields.find? (fun p => p.1 = key) with
    | some p => .ok p.2
    | none => .error (.keyError key)
  | _ => .error (.typeError "object is not subscriptable")

/-- `re.sub(r'^(position:|role:|job title:)\s*', '', line, flags=IGNORECASE)`. -/
def stripPositionPrefix (line : String) : String :=
  let low := (pyLower line).toList
  let dropped (n : ℕ) : String :=
    String.mk ((line.toList.drop n).dropWhile Char.isWhitespace)
  if "position:".toList.isPrefixOf low then dropped 9
  else if "role:".toList.isPrefixOf low then dropped 5
  else if "job title:".toList.isPrefixOf low then dropped 10
  else line

def extractPositionGo : List String → String
  | [] => "Unknown Position"
  | l :: rest =>
    let line := pyStrip l
    if line ≠ "" ∧ line.length < 100 then
      let line2 := stripPositionPrefix line
      if line2 ≠ "" then line2 else extractPositionGo rest
    else extractPositionGo rest

/-- `JDAnalyzer._extract_position_fallback`: scan the first five lines for a
stripped, non-empty line shorter than 100 characters; return it with a
leading `position:`/`role:`/`job title:` label removed, else keep
scanning; default `"Unknown Position"`. -/
def extract_position_fallback (text : String) : String :=
  extractPositionGo ((text.splitOn "\n").take 5)

/-- `JDAnalyzer._extract_structured_data`: the parsed value on parse success,
and the documented minimal structure when `json.loads` raised
`JSONDecodeError`. -/
def extract_structured_data (parsed : Option Json) (raw_text : String) : Json :=
  match parsed with
  | some j => j
  | none =>
    .obj [("company", .null),
          ("position", .str (extract_position_fallback raw_text)),
          ("industry", .null),
          ("required_skills", .arr []),
          ("preferred_skills", .arr []),
          ("responsibilities", .arr []),
          ("qualifications", .arr []),
          ("keywords", .arr [])]

/-- Reading an optional-string field out of the analysis dict.  (The Python
dataclass stores the raw value unchecked; the typed model rejects values of
an unexpected shape, which no claim exercises.) -/
def asOptStr : Option Json → Except PyErr (Option String)
  | none => .ok none
  | some .null => .ok none
  | some (.str s) => .ok (some s)
  | some _ => .error (.typeError "expected a string or null")

def asStrList : Option Json → Except PyErr (List String)
  | none => .ok []
  | some (.arr xs) => xs.mapM (fun j =>
      match j with
      | .str s => Except.ok s
      | _ => Except.error (.typeError "expected a string"))
  | some _ => .error (.typeError "expected a list")

def asKeywordEntry (j : Json) : Except PyErr KeywordWeight := do
  let t ← jsonIndex j "text"
  let w ← jsonIndex j "weight"
  let c ← jsonIndex j "category"
  match t, w, c with
  | .str ts, .num wq, .str cs => return { text := ts, weight := wq, category := cs }
  | _, _, _ => .error (.typeError "malformed keyword entry")

/-- `JDAnalyzer._create_weighted_keywords`:
`for kw_data in analysis_result.get("keywords", [])`, reading
`kw_data["text"]`, `kw_data["weight"]`, `kw_data["category"]`. -/
def create_weighted_keywords (analysis : Json) : Except PyErr (List KeywordWeight) := do
  match ← jsonGet analysis "keywords" with
  | none => return []
  | some (.arr xs) => xs.mapM asKeywordEntry
  | some _ => .error (.typeError "keywords is not iterable")

/-- `JDAnalyzer.analyze`, as a function of the parse outcome of the model
response.  The field reads happen in the textual order of the
`JobDescription(...)` constructor call, so the first read
(`analysis_result.get("company")`) raises `AttributeError` whenever the
parsed value is not a dict. -/
def jd_analyzer_analyze (parsed : Option Json) (raw_text : String) :
    Except PyErr JobDescription := do
  let analysis := extract_structured_data parsed raw_text
  let company ← asOptStr (← jsonGet analysis "company")
  let position ← asOptStr (← jsonGet analysis "position")
  let required_skills ← asStrList (← jsonGet analysis "required_skills")
  let preferred_skills ← asStrList (← jsonGet analysis "preferred_skills")
  let responsibilities ← asStrList (← jsonGet analysis "responsibilities")
  let qualifications ← asStrList (← jsonGet analysis "qualifications")
  let industry ← asOptStr (← jsonGet analysis "industry")
  let keywords ← create_weighted_keywords analysis
  return { raw_text := raw_text
           company := company
           position := position
           required_skills := required_skills
           preferred_skills := preferred_skills
           responsibilities := responsibilities
           qualifications := qualifications
           industry := industry
           keywords := keywords }

inductive ExecErr where
  | validationError (msg : String)
  | pyError (e : PyErr)
deriving Repr, DecidableEq

/-- `AnalyzeJDUseCase.execute`, instrumented with the number of generation
calls issued.  `parseOf trimmed` stands for the composite "call
`generate_text` on the analysis prompt and `json.loads` the fence-stripped
response" — one generation call per use.  The validation
`if not raw_text or len(raw_text.strip()) < 50` precedes any generation. -/
def analyze_jd_execute (parseOf : String → Option Json) (raw_text : String) :
    Except ExecErr JobDescription × ℕ :=
  if raw_text = "" ∨ (pyStrip raw_text).length < 50 then
    (.error (.validationError "Job description must be at least 50 characters"), 0)
  else
    match jd_analyzer_analyze (parseOf (pyStrip raw_text)) (pyStrip raw_text) with
    | .ok jd => (.ok jd, 1)
    | .error e => (.error (.pyError e), 1)

/-! ### Memory cache (`infra/cache/memory_cache.py`) and cached JD analysis
(`application/use_cases/jd_analysis_enhanced.py`)

The cache stores JSON-serialized dicts; `set_json`/`get_json` round-trip
through `json.dumps`/`json.loads`, which is the identity on the analysis
result dicts involved, so entries are modelled as holding the value
directly.  `time.time()` is passed in explicitly as a natural-number
timestamp, one per operation. -/

structure CacheEntry (α : Type) where
  value : α
  expires_at : ℕ
deriving Repr, DecidableEq

abbrev Cache (α : Type) : Type := List (String × CacheEntry α)

/-- `MemoryCacheService.set` (dict assignment replaces any entry under the
same key). -/
def cache_set {α : Type} (c : Cache α) (key : String) (v : α) (ttl now : ℕ) :
    Cache α :=
  (key, { value := v, expires_at := now + ttl }) ::
    c.filter (fun p => p.1 ≠ key)

/-- `MemoryCacheService.get`: a hit unless the entry is absent or
`entry.expires_at < time.time()`; an expired entry is deleted on the way. -/
def cache_get {α : Type} (c : Cache α) (key : String) (now : ℕ) :
    Option α × Cache α :=
  match c.find? (fun p => p.1 = key) with
  | none => (none, c)
  | some p =>
    if p.2.expires_at < now then (none, c.filter (fun q => q.1 ≠ key))
    else (some p.2.value, c)

/-- The analysis dict returned by `EnhancedLLMService.analyze_jd` (that
service is not part of the sources; only the keys the use case reads are
relevant, each read with `.get(key, default)`). -/
structure AnalysisDict where
  top_keywords : List String := []
  required_skills : List String := []
  preferred_skills : List String := []
  common_verbs : List String := []
  common_nouns : List String := []
  /-- `analysis.get("industry", "unknown")`: `none` models an absent key. -/
  industry : Option String := none
deriving Repr, DecidableEq

/-- The result dict of `JDAnalysisEnhancedUseCase.execute`. -/
structure JDAnalysisResult where
  jd_id : String
  top_keywords : List String
  required_skills : List String
  preferred_skills : List String
  common_verbs : List String
  common_nouns : List String
  industry : String
  cached : Bool
deriving Repr, DecidableEq

/-- A `JDAnalysisModel` database row (timestamps omitted). -/
structure JDAnalysisRow where
  id : String
  user_id : String
  company : Option String
  job_title : String
  job_url : Option String
  raw_text : String
  jd_hash : String
  analysis : AnalysisDict
deriving Repr, DecidableEq

structure EnhancedState where
  cache : Cache JDAnalysisResult
  db : List JDAnalysisRow
deriving Repr, DecidableEq

instance {ε α : Type} [DecidableEq ε] [DecidableEq α] :
    DecidableEq (Except ε α) := fun a b =>
  match a, b with
  | .ok x, .ok y => decidable_of_iff (x = y) (by simp)
  | .error x, .error y => decidable_of_iff (x = y) (by simp)
  | .ok _, .error _ => .isFalse (by simp)
  | .error _, .ok _ => .isFalse (by simp)

structure EnhancedOut where
  result : Except ExecErr JDAnalysisResult
  state : EnhancedState
  /-- generation (LLM analysis) calls issued by this call. -/
  genCalls : ℕ
deriving Repr, DecidableEq

def jdTtl : ℕ := 7 * 24 * 3600

/-- `JDAnalysisEnhancedUseCase.execute`.  Parameters standing for external
collaborators: `llm_analyze` for `EnhancedLLMService.analyze_jd` (counted by
`genCalls`), `md5hex` for `hashlib.md5(...).hexdigest()`, `freshId` for the
id the database assigns to a newly inserted row, `now` for `time.time()`.
On the database-hit path the dict cached back lacks a `"cached"` key (it is
set to `True` only after `set_json`); it is stored here as `cached :=
false`, which a later cache hit overwrites anyway. -/
def enhanced_execute (llm_analyze : String → String → AnalysisDict)
    (md5hex : String → String) (freshId : String)
    (st : EnhancedState) (now : ℕ)
    (jd_text job_title : String) (company job_url user_id : Option String) :
    EnhancedOut :=
  if jd_text = "" ∨ (pyStrip jd_text).length < 50 then
    { result := .error (.validationError "Job description must be at least 50 characters")
      state := st, genCalls := 0 }
  else
    let t := pyStrip jd_text
    let jd_hash := md5hex t
    let cache_key := "jd_analysis:" ++ jd_hash
    match cache_get st.cache cache_key now with
    | (some r, c') =>
      { result := .ok { r with cached := true }
        state := { st with cache := c' }, genCalls := 0 }
    | (none, c') =>
      match st.db.find? (fun row => row.jd_hash = jd_hash) with
      | some row =>
        let r : JDAnalysisResult :=
          { jd_id := row.id
            top_keywords := row.analysis.top_keywords
            required_skills := row.analysis.required_skills
            preferred_skills := row.analysis.preferred_skills
            common_verbs := row.analysis.common_verbs
            common_nouns := row.analysis.common_nouns
            industry := row.analysis.industry.getD "unknown"
            cached := false }
        { result := .ok { r with cached := true }
          state := { cache := cache_set c' cache_key r jdTtl now, db := st.db }
          genCalls := 0 }
      | none =>
        let analysis := llm_analyze t job_title
        let row : JDAnalysisRow :=
          { id := freshId
            user_id := user_id.getD "anonymous"
            company := company
            job_title := job_title
            job_url := job_url
            raw_text := t
            jd_hash := jd_hash
            analysis := analysis }
        let result : JDAnalysisResult :=
          { jd_id := freshId
            top_keywords := analysis.top_keywords
            required_skills := analysis.required_skills
            preferred_skills := analysis.preferred_skills
            common_verbs := analysis.common_verbs
            common_nouns := analysis.common_nouns
            industry := analysis.industry.getD "unknown"
            cached := false }
        { result := .ok result
          state := { cache := cache_set c' cache_key result jdTtl now
                     db := st.db ++ [row] }
          genCalls := 1 }

/-! ## Claim theorems -/

/-! ### C4: ATS score formula -/

/-- The fraction of optimizations whose improvement list mentions a metric or
quantification (0 when the list is empty). -/
def metricsRatio (opts : List BulletOptimization) : ℚ :=
  if opts.isEmpty then 0 else
    ((opts.filter (fun opt => opt.improvements.any (fun imp =>
      strIn "metric" (pyLower imp) || strIn "quantif" (pyLower imp)))).length : ℚ) /
      (opts.length : ℚ)

/-- The mean number of matched keywords per optimization (0 when the list is
empty). -/
def avgKeywordsPerOptimization (opts : List BulletOptimization) : ℚ :=
  if opts.isEmpty then 0 else
    ((opts.map (fun opt => (opt.keyword_matches.length : ℚ))).sum) /
      (opts.length : ℚ)

theorem metricsRatio_nonneg (opts : List BulletOptimization) :
    0 ≤ metricsRatio opts := by
  unfold metricsRatio
  split
  · exact le_refl 0
  · positivity

theorem avgKeywords_nonneg (opts : List BulletOptimization) :
    0 ≤ avgKeywordsPerOptimization opts := by
  unfold avgKeywordsPerOptimization
  split
  · exact le_refl 0
  · apply div_nonneg _ (by positivity)
    apply List.sum_nonneg
    intro x hx
    obtain ⟨opt, -, rfl⟩ := List.mem_map.mp hx
    positivity

/-- C4: for every match score in [0,100] and every optimization list, the ATS
score equals `matchScore*0.6 + metricsRatio*20 +
min(avgKeywordsPerOptimization/3, 1)*20` clamped to [0,100] (both ratio terms
are 0 for an empty optimization list), and the result always lies in
[0,100]. -/
theorem C4_ats_score_formula (m : ℚ) (opts : List BulletOptimization)
    (h0 : 0 ≤ m) (h1 : m ≤ 100) :
    calc_ats_score m opts =
      max 0 (min (m * 0.6 + metricsRatio opts * 20 +
        min (avgKeywordsPerOptimization opts / 3) 1 * 20) 100)
    ∧ 0 ≤ calc_ats_score m opts ∧ calc_ats_score m opts ≤ 100 := by
  have hmr := metricsRatio_nonneg opts
  have hav := avgKeywords_nonneg opts
  have hterm : 0 ≤ min (avgKeywordsPerOptimization opts / 3) 1 * 20 := by
    have : (0:ℚ) ≤ min (avgKeywordsPerOptimization opts / 3) 1 :=
      le_min (by positivity) (by norm_num)
    positivity
  have hinner : 0 ≤ m * 0.6 + metricsRatio opts * 20 +
      min (avgKeywordsPerOptimization opts / 3) 1 * 20 := by positivity
  have hmin : (0:ℚ) ≤ min (m * 0.6 + metricsRatio opts * 20 +
      min (avgKeywordsPerOptimization opts / 3) 1 * 20) 100 :=
    le_min hinner (by norm_num)
  have heq : calc_ats_score m opts =
      min (m * 0.6 + metricsRatio opts * 20 +
        min (avgKeywordsPerOptimization opts / 3) 1 * 20) 100 := by
    unfold calc_ats_score metricsRatio avgKeywordsPerOptimization
    rcases hE : opts.isEmpty with _ | _
    · simp only [hE, Bool.false_eq_true, if_false, pymin_eq_min]
      congr 1
      rw [min_mul_of_nonneg _ _ (by norm_num : (0:ℚ) ≤ 20)]
      ring_nf
    · simp only [hE, if_true, pymin_eq_min]
      have : min ((0:ℚ) / 3) 1 * 20 = 0 := by norm_num
      rw [this]
      ring_nf
  refine ⟨?_, ?_, ?_⟩
  · rw [heq, max_eq_right hmin]
  · rw [heq]; exact hmin
  · rw [heq]; exact min_le_right _ _

def W4_opts : List BulletOptimization :=
  [{ bullet_id := "b1", original_text := "Built tool",
     optimized_text := "Engineered tool adopted by 40% of teams",
     improvements := ["Added quantifiable metrics"],
     keyword_matches := ["python", "sql"], status := "pending" }]

/-- Witness for C4 at a concrete match score and optimization list. -/
theorem C4_witness :
    ((0:ℚ) ≤ 80 ∧ (80:ℚ) ≤ 100) ∧
    (calc_ats_score 80 W4_opts =
      max 0 (min ((80:ℚ) * 0.6 + metricsRatio W4_opts * 20 +
        min (avgKeywordsPerOptimization W4_opts / 3) 1 * 20) 100)
    ∧ 0 ≤ calc_ats_score 80 W4_opts ∧ calc_ats_score 80 W4_opts ≤ 100) :=
  ⟨⟨by norm_num, by norm_num⟩,
   C4_ats_score_formula 80 W4_opts (by norm_num) (by norm_num)⟩

/-! ### C5: bullet optimization fails open -/

/-- C5: if the generation call issued by `optimize_bullet` fails with any
error, the error is not propagated: the returned `BulletOptimization`
carries the original bullet text verbatim as `optimized_text` (and as
`original_text`), so a bullet-optimization failure cannot abort the
tailoring pipeline. -/
theorem C5_optimize_bullet_fail_open (llm : LlmGen) (b : BulletPoint)
    (jd : JobDescription) (ctx : String) (e : String)
    (h : llm (mkOptimizePrompt b.text (topKeywords jd) ctx)
        (some optimizeSystemPrompt) 0.7 200 = .error e) :
    (optimize_bullet llm b jd ctx).optimized_text = b.text ∧
    (optimize_bullet llm b jd ctx).original_text = b.text := by
  unfold optimize_bullet generate_optimized_text
  simp [h]

def W5_llm : LlmGen := fun _ _ _ _ => .error "connection refused"

def W5_bullet : BulletPoint := { id := "b1", text := "Built internal tool" }

def W5_jd : JobDescription := { keywords := [⟨"python", 0.9, "required"⟩] }

/-- Witness for C5 with an always-failing provider. -/
theorem C5_witness :
    W5_llm (mkOptimizePrompt W5_bullet.text (topKeywords W5_jd) "")
        (some optimizeSystemPrompt) 0.7 200 = .error "connection refused" ∧
    ((optimize_bullet W5_llm W5_bullet W5_jd "").optimized_text = W5_bullet.text ∧
     (optimize_bullet W5_llm W5_bullet W5_jd "").original_text = W5_bullet.text) :=
  ⟨rfl, C5_optimize_bullet_fail_open W5_llm W5_bullet W5_jd "" "connection refused" rfl⟩

/-! ### C6: short-input validation -/

theorem pyStrip_empty : pyStrip "" = "" := rfl

/-- C6: any JD text whose trimmed length is below 50 characters (the empty
string included) makes both analysis operations fail with the validation
error while issuing zero generation calls; a text whose trimmed length is at
least 50 proceeds to analysis (exactly one generation call in the plain use
case). -/
theorem C6_jd_length_validation (parseOf : String → Option Json)
    (llm_analyze : String → String → AnalysisDict) (md5hex : String → String)
    (freshId : String) (st : EnhancedState) (now : ℕ)
    (raw_short raw_long job_title : String)
    (company job_url user_id : Option String)
    (h1 : (pyStrip raw_short).length < 50)
    (h2 : 50 ≤ (pyStrip raw_long).length) :
    analyze_jd_execute parseOf raw_short =
      (.error (.validationError "Job description must be at least 50 characters"), 0)
  ∧ enhanced_execute llm_analyze md5hex freshId st now raw_short job_title
      company job_url user_id =
      { result := .error (.validationError "Job description must be at least 50 characters"),
        state := st, genCalls := 0 }
  ∧ (analyze_jd_execute parseOf raw_long).2 = 1 := by
  have hshort : raw_short = "" ∨ (pyStrip raw_short).length < 50 := Or.inr h1
  have hlong : ¬ (raw_long = "" ∨ (pyStrip raw_long).length < 50) := by
    rintro (rfl | hlt)
    · simp [pyStrip_empty] at h2
    · omega
  refine ⟨?_, ?_, ?_⟩
  · unfold analyze_jd_execute
    rw [if_pos hshort]
  · unfold enhanced_execute
    rw [if_pos hshort]
  · unfold analyze_jd_execute
    rw [if_neg hlong]
    cases jd_analyzer_analyze (parseOf (pyStrip raw_long)) (pyStrip raw_long) <;> rfl

/-- Witness for C6: a 2-character text is rejected with no generation call, a
50-character text proceeds. -/
theorem C6_witness :
    ((pyStrip "hi").length < 50 ∧
      50 ≤ (pyStrip "aaaaaaaaaaaaaaaaaaaaaaaaaaaaaaaaaaaaaaaaaaaaaaaaaa").length) ∧
    (analyze_jd_execute (fun _ => none) "hi" =
      (.error (.validationError "Job description must be at least 50 characters"), 0)
    ∧ enhanced_execute (fun _ _ => {}) (fun _ => "h0") "id0" ⟨[], []⟩ 0 "hi" "t"
        none none none =
        { result := .error (.validationError "Job description must be at least 50 characters"),
          state := ⟨[], []⟩, genCalls := 0 }
    ∧ (analyze_jd_execute (fun _ => none)
        "aaaaaaaaaaaaaaaaaaaaaaaaaaaaaaaaaaaaaaaaaaaaaaaaaa").2 = 1) :=
  ⟨⟨by decide, by decide⟩,
   C6_jd_length_validation (fun _ => none) (fun _ _ => {}) (fun _ => "h0") "id0"
     ⟨[], []⟩ 0 "hi" "aaaaaaaaaaaaaaaaaaaaaaaaaaaaaaaaaaaaaaaaaaaaaaaaaa" "t"
     none none none (by decide) (by decide)⟩

/-! ### C9: recovery from malformed model output -/

def C9raw : String := "Senior Backend Engineer\nWe build distributed systems"

/-- Counterexample to C9: the model output `"[]"` is malformed (it is not the
expected structured object) yet parses as JSON, so `json.loads` does not
raise; the subsequent `.get("company")` on the list raises `AttributeError`,
which no handler catches — `analyze` hard-fails instead of returning the
minimal fallback `JobDescription`.  The claimed recovery therefore covers
only a subset of malformed outputs. -/
theorem C9_counterexample :
    jd_analyzer_analyze (some (Json.arr [])) C9raw =
      .error (.attributeError "object has no attribute get")
    ∧ jd_analyzer_analyze (some (Json.arr [])) C9raw ≠
        .ok { raw_text := C9raw,
              position := some (extract_position_fallback C9raw) } := by
  exact ⟨rfl, by decide⟩

/-- C9 (amended): the no-hard-fail recovery applies exactly to generation
outputs that fail JSON parsing (`json.JSONDecodeError`): those yield a
minimal `JobDescription` whose position is the first-short-non-empty-line
heuristic over the raw text and whose list fields are all empty.  Outputs
that parse as JSON but are not objects of the expected shape (e.g. a JSON
array) instead raise and propagate. -/
theorem C9_parse_failure_recovery (raw : String) (xs : List Json) :
    jd_analyzer_analyze none raw =
      .ok { raw_text := raw, company := none,
            position := some (extract_position_fallback raw),
            required_skills := [], preferred_skills := [],
            responsibilities := [], qualifications := [],
            industry := none, keywords := [] }
    ∧ (∃ err, jd_analyzer_analyze (some (Json.arr xs)) raw = .error err) := by
  exact ⟨rfl, ⟨_, rfl⟩⟩

/-! ### C10: soundness of keyword_matches -/

/-- C10: every entry of `keyword_matches` is an optimization-target keyword
(drawn from the first 15 JD keywords with weight at least 0.6) occurring
case-insensitively as a substring of the optimized text, and the matches
list preserves the order of the JD keyword list (it is a sublist of the
keyword texts). -/
theorem C10_keyword_matches_sound (llm : LlmGen) (b : BulletPoint)
    (jd : JobDescription) (ctx : String) :
    (optimize_bullet llm b jd ctx).keyword_matches.Sublist
        (jd.keywords.map (fun kw => kw.text))
    ∧ ∀ s ∈ (optimize_bullet llm b jd ctx).keyword_matches,
        (∃ kw ∈ jd.keywords.take 15, kw.weight ≥ 0.6 ∧ kw.text = s)
        ∧ strIn (pyLower s)
            (pyLower (optimize_bullet llm b jd ctx).optimized_text) = true := by
  have hmatches : (optimize_bullet llm b jd ctx).keyword_matches =
      (topKeywords jd).filter (fun kw =>
        strIn (pyLower kw)
          (pyLower (optimize_bullet llm b jd ctx).optimized_text)) := rfl
  constructor
  · rw [hmatches]
    refine List.Sublist.trans (List.filter_sublist _) ?_
    unfold topKeywords
    refine List.Sublist.trans (List.Sublist.map _ (List.filter_sublist _)) ?_
    exact List.Sublist.map _ (List.take_sublist _ _)
  · intro s hs
    rw [hmatches] at hs
    obtain ⟨hmem, hp⟩ := List.mem_filter.mp hs
    refine ⟨?_, hp⟩
    unfold topKeywords at hmem
    obtain ⟨kw, hkw, rfl⟩ := List.mem_map.mp hmem
    obtain ⟨htake, hw⟩ := List.mem_filter.mp hkw
    exact ⟨kw, htake, by simpa using hw, rfl⟩

/-! ### C1: match score -/

theorem mem_bulletFold (kws : Finset String) (bullets : List BulletPoint)
    (acc : Finset String) (k : String) :
    k ∈ bullets.foldl (fun a b =>
      a ∪ kws.filter (fun k => strIn k (pyLower b.text))) acc ↔
    k ∈ acc ∨ (k ∈ kws ∧ ∃ b ∈ bullets, strIn k (pyLower b.text)) := by
  induction bullets generalizing acc with
  | nil => simp
  | cons b bs ih =>
    simp only [List.foldl_cons, ih, Finset.mem_union, Finset.mem_filter,
      List.mem_cons]
    constructor
    · rintro (((h | ⟨h1, h2⟩) | ⟨h1, b', hb', h2⟩))
      · exact Or.inl h
      · exact Or.inr ⟨h1, b, Or.inl rfl, h2⟩
      · exact Or.inr ⟨h1, b', Or.inr hb', h2⟩
    · rintro (h | ⟨h1, b', (rfl | hb'), h2⟩)
      · exact Or.inl (Or.inl h)
      · exact Or.inl (Or.inr ⟨h1, h2⟩)
      · exact Or.inr ⟨h1, b', hb', h2⟩

theorem mem_foundKeywords (selected : List Experience) (kws : Finset String)
    (k : String) :
    k ∈ foundKeywords selected kws ↔
      k ∈ kws ∧ ∃ e ∈ selected,
        (∃ s ∈ e.skills_used, pyLower s = k) ∨
        ∃ b ∈ e.bullets, strIn k (pyLower b.text) := by
  have aux : ∀ acc : Finset String,
      k ∈ selected.foldl (fun acc e =>
        let acc1 := acc ∪ ((e.skills_used.map pyLower).toFinset ∩ kws)
        e.bullets.foldl (fun a b =>
          a ∪ kws.filter (fun k => strIn k (pyLower b.text))) acc1) acc ↔
      k ∈ acc ∨ (k ∈ kws ∧ ∃ e ∈ selected,
        (∃ s ∈ e.skills_used, pyLower s = k) ∨
        ∃ b ∈ e.bullets, strIn k (pyLower b.text)) := by
    induction selected with
    | nil => simp
    | cons e es ih =>
      intro acc
      simp only [List.foldl_cons, ih, mem_bulletFold, Finset.mem_union,
        Finset.mem_inter, List.mem_toFinset, List.mem_map, List.mem_cons]
      constructor
      · rintro (((h | ⟨⟨s, hs, rfl⟩, hk⟩) | ⟨hk, b, hb, hsb⟩) | ⟨hk, e', he', hP⟩)
        · exact Or.inl h
        · exact Or.inr ⟨hk, e, Or.inl rfl, Or.inl ⟨s, hs, rfl⟩⟩
        · exact Or.inr ⟨hk, e, Or.inl rfl, Or.inr ⟨b, hb, hsb⟩⟩
        · exact Or.inr ⟨hk, e', Or.inr he', hP⟩
      · rintro (h | ⟨hk, e', (rfl | he'), (⟨s, hs, hsk⟩ | ⟨b, hb, hsb⟩)⟩)
        · exact Or.inl (Or.inl (Or.inl h))
        · exact Or.inl (Or.inl (Or.inr ⟨⟨s, hs, hsk⟩, hk⟩))
        · exact Or.inl (Or.inr ⟨hk, b, hb, hsb⟩)
        · exact Or.inr ⟨hk, e', he', Or.inl ⟨s, hs, hsk⟩⟩
        · exact Or.inr ⟨hk, e', he', Or.inr ⟨b, hb, hsb⟩⟩
  simpa [foundKeywords] using aux ∅

/-- The match score as claim C1 words it: a JD keyword counts as found when
it occurs as a case-insensitive substring anywhere in a selected
experience's skills or bullet text. -/
def matchScoreClaimed (m : MasterResume) (jd : JobDescription)
    (selected_exp_ids : List String) : ℚ :=
  if jd.keywords.isEmpty then 50 else
    let selected := m.experiences.filter (fun e => selected_exp_ids.contains e.id)
    let kws := jdKeywordSet jd
    let found := kws.filter (fun k => selected.any (fun e =>
      e.skills_used.any (fun s => strIn k (pyLower s)) ||
      e.bullets.any (fun b => strIn k (pyLower b.text))))
    pymin (((found.card : ℚ) / kws.card) * 100) 100

/-- The match score with C1's skill clause amended to what the code computes:
a keyword is found when it is case-insensitively equal to one of a selected
experience's skills, or occurs as a case-insensitive substring of a selected
experience's bullet text. -/
def matchScoreAmended (m : MasterResume) (jd : JobDescription)
    (selected_exp_ids : List String) : ℚ :=
  if jd.keywords.isEmpty then 50 else
    let selected := m.experiences.filter (fun e => selected_exp_ids.contains e.id)
    let kws := jdKeywordSet jd
    let found := kws.filter (fun k => selected.any (fun e =>
      e.skills_used.any (fun s => pyLower s == k) ||
      e.bullets.any (fun b => strIn k (pyLower b.text))))
    pymin (((found.card : ℚ) / kws.card) * 100) 100

def C1_jd : JobDescription := { keywords := [⟨"python", 0.9, "required"⟩] }

def C1_resume : MasterResume :=
  { experiences := [{ id := "e1", skills_used := ["Python Programming"] }] }

/-- Counterexample to C1: the JD keyword `python` occurs as a case-insensitive
substring of the selected experience's skill `Python Programming`, so the
claimed score is 100; the code compares skills against the keyword set by
exact equality (`skill.lower() in jd_keywords`), finds nothing, and returns
0. -/
theorem C1_counterexample :
    calculate_match_score C1_resume C1_jd ["e1"] = 0
    ∧ matchScoreClaimed C1_resume C1_jd ["e1"] = 100
    ∧ calculate_match_score C1_resume C1_jd ["e1"] ≠
        matchScoreClaimed C1_resume C1_jd ["e1"] := by
  have hne : jdKeywordSet C1_jd ≠ ∅ := by decide
  have hkw : (jdKeywordSet C1_jd).card = 1 := by decide
  have hfound : (foundKeywords
      (C1_resume.experiences.filter (fun e => (["e1"] : List String).contains e.id))
      (jdKeywordSet C1_jd)).card = 0 := by decide
  have hclaimed : ((jdKeywordSet C1_jd).filter (fun k =>
      (C1_resume.experiences.filter (fun e => (["e1"] : List String).contains e.id)).any
        (fun e => e.skills_used.any (fun s => strIn k (pyLower s)) ||
          e.bullets.any (fun b => strIn k (pyLower b.text))))).card = 1 := by decide
  have h1 : calculate_match_score C1_resume C1_jd ["e1"] = 0 := by
    unfold calculate_match_score
    simp only [show C1_jd.keywords.isEmpty = false from rfl, Bool.false_eq_true,
      if_false]
    rw [if_neg hne, hfound, hkw]
    rw [pymin, if_pos (by norm_num)]
    norm_num
  have h2 : matchScoreClaimed C1_resume C1_jd ["e1"] = 100 := by
    unfold matchScoreClaimed
    simp only [show C1_jd.keywords.isEmpty = false from rfl, Bool.false_eq_true,
      if_false]
    rw [hclaimed, hkw]
    rw [pymin, if_pos (by norm_num)]
    norm_num
  exact ⟨h1, h2, by rw [h1, h2]; norm_num⟩

theorem foundKeywords_eq_filter (selected : List Experience)
    (kws : Finset String) :
    foundKeywords selected kws = kws.filter (fun k =>
      selected.any (fun e => e.skills_used.any (fun s => pyLower s == k) ||
        e.bullets.any (fun b => strIn k (pyLower b.text)))) := by
  ext k
  rw [mem_foundKeywords, Finset.mem_filter]
  simp [List.any_eq_true, beq_iff_eq, and_comm]

/-- C1 (amended): for every master resume, job description and selected
experience ids, `calculate_match_score` returns the ratio of distinct
lowercased JD keywords that are case-insensitively *equal* to some selected
experience's skill or occur as a case-insensitive substring of some selected
experience's bullet text, over the number of distinct lowercased JD
keywords, scaled to 0-100 and capped at 100, with 50.0 when the JD has no
keywords. -/
theorem jdKeywordSet_ne_empty (jd : JobDescription)
    (h : jd.keywords.isEmpty = false) : jdKeywordSet jd ≠ ∅ := by
  rcases hk : jd.keywords with _ | ⟨kw, tl⟩
  · rw [hk] at h; simp at h
  · apply Finset.ne_empty_of_mem (a := pyLower kw.text)
    unfold jdKeywordSet
    rw [List.mem_toFinset, hk]
    exact List.mem_map.mpr ⟨kw, List.mem_cons_self kw tl, rfl⟩

theorem C1_match_score_amended (m : MasterResume) (jd : JobDescription)
    (selected_exp_ids : List String) :
    calculate_match_score m jd selected_exp_ids =
      matchScoreAmended m jd selected_exp_ids := by
  unfold calculate_match_score matchScoreAmended
  rcases h : jd.keywords.isEmpty with _ | _
  · simp only [Bool.false_eq_true, if_false]
    rw [foundKeywords_eq_filter, if_neg (jdKeywordSet_ne_empty jd h)]
  · simp [h]

/-! ### C3: selection bounds, ordering, stability, determinism -/

theorem insertDesc_perm {α : Type} (x : α × ℚ) (l : List (α × ℚ)) :
    (insertDesc x l).Perm (x :: l) := by
  induction l with
  | nil => exact List.Perm.refl _
  | cons y ys ih =>
    unfold insertDesc
    split
    · exact ((ih.cons y).trans (List.Perm.swap x y ys))
    · exact List.Perm.refl _

theorem sortDesc_perm {α : Type} (l : List (α × ℚ)) : (sortDesc l).Perm l := by
  induction l with
  | nil => exact List.Perm.refl _
  | cons x xs ih => exact (insertDesc_perm x (sortDesc xs)).trans (ih.cons x)

theorem insertDesc_pairwise {α : Type} (x : α × ℚ) (l : List (α × ℚ))
    (h : l.Pairwise (fun a b => b.2 ≤ a.2)) :
    (insertDesc x l).Pairwise (fun a b => b.2 ≤ a.2) := by
  induction l with
  | nil => simp [insertDesc]
  | cons y ys ih =>
    rw [List.pairwise_cons] at h
    obtain ⟨hy, hys⟩ := h
    unfold insertDesc
    split
    · rename_i hlt
      rw [List.pairwise_cons]
      refine ⟨?_, ih hys⟩
      intro z hz
      rcases List.mem_cons.mp ((insertDesc_perm x ys).mem_iff.mp hz) with rfl | hzys
      · exact le_of_lt hlt
      · exact hy z hzys
    · rename_i hge
      rw [List.pairwise_cons]
      refine ⟨?_, List.pairwise_cons.mpr ⟨hy, hys⟩⟩
      intro z hz
      rcases List.mem_cons.mp hz with rfl | hzys
      · exact le_of_not_lt hge
      · exact le_trans (hy z hzys) (le_of_not_lt hge)

theorem sortDesc_pairwise {α : Type} (l : List (α × ℚ)) :
    (sortDesc l).Pairwise (fun a b => b.2 ≤ a.2) := by
  induction l with
  | nil => simp [sortDesc]
  | cons x xs ih => exact insertDesc_pairwise x (sortDesc xs) ih

/-- Stability of one insertion step: filtering by any fixed score value
cannot tell `insertDesc x l` apart from `x :: l`. -/
theorem insertDesc_filter {α : Type} (x : α × ℚ) (l : List (α × ℚ)) (q : ℚ) :
    (insertDesc x l).filter (fun p => p.2 == q) =
      (x :: l).filter (fun p => p.2 == q) := by
  induction l with
  | nil => rfl
  | cons y ys ih =>
    unfold insertDesc
    split
    · rename_i hlt
      by_cases hx : x.2 = q <;> by_cases hy : y.2 = q
    -- an element never moves past an equal-scored one
      · exact absurd hlt (by rw [hx, hy]; exact lt_irrefl q)
      · simp only [List.filter_cons, beq_iff_eq, hx, hy, ih, decide_True,
          decide_False, if_true, if_false]
      · simp only [List.filter_cons, beq_iff_eq, hx, hy, ih, decide_True,
          decide_False, if_true, if_false]
      · simp only [List.filter_cons, beq_iff_eq, hx, hy, ih, decide_True,
          decide_False, if_true, if_false]
    · rfl

/-- Python's `list.sort` stability, phrased per score class: the elements of
any fixed score keep their original relative order. -/
theorem sortDesc_stable {α : Type} (l : List (α × ℚ)) (q : ℚ) :
    (sortDesc l).filter (fun p => p.2 == q) = l.filter (fun p => p.2 == q) := by
  induction l with
  | nil => rfl
  | cons x xs ih =>
    show (insertDesc x (sortDesc xs)).filter _ = _
    rw [insertDesc_filter]
    simp only [List.filter_cons, ih]

theorem select_bullets_length (e : Experience) (jd : JobDescription)
    (max_bullets : ℕ) : (select_bullets e jd max_bullets).length ≤ max_bullets := by
  unfold select_bullets
  split
  · simp
  · rw [List.length_take]
    exact min_le_left _ _

theorem pairwise_map_score {α : Type} (score : α → ℚ) (l : List α) :
    ((sortDesc (l.map (fun a => (a, score a)))).map Prod.fst).Pairwise
      (fun a b => score b ≤ score a) := by
  have hsnd : ∀ p ∈ sortDesc (l.map (fun a => (a, score a))), p.2 = score p.1 := by
    intro p hp
    obtain ⟨a, -, rfl⟩ :=
      List.mem_map.mp ((sortDesc_perm _).mem_iff.mp hp)
    rfl
  have hpw := sortDesc_pairwise (l.map (fun a => (a, score a)))
  rw [List.pairwise_map]
  exact hpw.imp_of_mem (fun {a b} ha hb hab => by
    rw [hsnd a ha, hsnd b hb] at hab
    exact hab)

theorem select_bullets_pairwise (e : Experience) (jd : JobDescription)
    (max_bullets : ℕ) :
    (select_bullets e jd max_bullets).Pairwise
      (fun a b => score_bullet b jd ≤ score_bullet a jd) := by
  unfold select_bullets
  split
  · simp
  · exact (pairwise_map_score (fun b => score_bullet b jd) e.bullets).sublist
      (List.take_sublist _ _)

/-- C3: `select_content` returns at most `max_experiences` experiences, at
most `max_bullets_per_exp` bullets per returned experience; experiences and
bullets are ordered by their scores descending, ties are broken by original
input order (stability: per score class the original order is kept), and the
function is deterministic (it is a pure function of its inputs). -/
theorem C3_select_content_spec (m : MasterResume) (jd : JobDescription)
    (maxE maxB : ℕ) :
    (select_content m jd maxE maxB).1.length ≤ maxE
  ∧ (∀ pr ∈ (select_content m jd maxE maxB).2, pr.2.length ≤ maxB)
  ∧ (select_content m jd maxE maxB).1.Pairwise
      (fun a b => score_experience b jd ≤ score_experience a jd)
  ∧ (∀ pr ∈ (select_content m jd maxE maxB).2, pr.2.Pairwise
      (fun a b => score_bullet b jd ≤ score_bullet a jd))
  ∧ (∀ q : ℚ,
      (sortDesc (m.experiences.map (fun e => (e, score_experience e jd)))).filter
          (fun p => p.2 == q) =
        (m.experiences.map (fun e => (e, score_experience e jd))).filter
          (fun p => p.2 == q))
  ∧ (∀ e : Experience, ∀ q : ℚ,
      (sortDesc (e.bullets.map (fun b => (b, score_bullet b jd)))).filter
          (fun p => p.2 == q) =
        (e.bullets.map (fun b => (b, score_bullet b jd))).filter
          (fun p => p.2 == q))
  ∧ select_content m jd maxE maxB = select_content m jd maxE maxB := by
  refine ⟨?_, ?_, ?_, ?_, fun q => sortDesc_stable _ q,
    fun e q => sortDesc_stable _ q, rfl⟩
  · show ((_ : List (Experience × ℚ)).map Prod.fst |>.take maxE).length ≤ maxE
    rw [List.length_take]
    exact min_le_left _ _
  · intro pr hpr
    obtain ⟨e, -, rfl⟩ := List.mem_map.mp hpr
    exact select_bullets_length e jd maxB
  · exact (pairwise_map_score (fun e => score_experience e jd)
      m.experiences).sublist (List.take_sublist _ _)
  · intro pr hpr
    obtain ⟨e, -, rfl⟩ := List.mem_map.mp hpr
    exact select_bullets_pairwise e jd maxB

/-! ### C2: gateway failover -/

/-- When the active provider is the primary and it fails on every attempt
while the fallback succeeds, the retry loop runs all its iterations against
the primary and then returns the fallback's result from the failover
branch. -/
theorem generateLoop_fails_over (mgr : LLMManager) (req : GenRequest)
    (errs : GenRequest → String) (fres : String)
    (hen : mgr.enable_fallback = true)
    (hp : ∀ r, mgr.primary_provider r = .error (errs r))
    (hf : mgr.fallback_provider req = .ok fres) :
    ∀ k made, generateLoop mgr (initState mgr) req (k + 1) made =
      { result := .ok fres
        state := { current_provider := mgr.fallback_provider
                   current_provider_name := mgr.fallback_provider_name }
        activeCalls := made + (k + 1), fallbackCalls := 1 } := by
  intro k
  induction k with
  | zero =>
    intro made
    unfold generateLoop
    rw [show (initState mgr).current_provider req = .error (errs req) from hp req]
    simp only [if_pos rfl]
    have hcond : mgr.enable_fallback = true ∧
        (initState mgr).current_provider_name = mgr.primary_provider_name :=
      ⟨hen, rfl⟩
    rw [if_pos hcond, hf]
    simp only [if_true]
  | succ k ih =>
    intro made
    unfold generateLoop
    rw [show (initState mgr).current_provider req = .error (errs req) from hp req]
    simp only [Nat.succ_ne_zero, if_false]
    rw [ih (made + 1)]
    congr 1
    omega

/-- C2: with fallback enabled, a primary that always fails and a fallback
that always succeeds, `generate_text` returns the fallback's result after
exactly `maxRetries` attempts against the primary plus one attempt against
the fallback; afterwards the current provider is the fallback, a subsequent
successful call leaves it the fallback (no automatic reset), and
`reset_to_primary` restores the primary. -/
theorem C2_gateway_failover (mgr : LLMManager) (req req2 : GenRequest)
    (errs : GenRequest → String) (f : GenRequest → String)
    (hen : mgr.enable_fallback = true)
    (hmr : 1 ≤ mgr.max_retries)
    (hp : ∀ r, mgr.primary_provider r = .error (errs r))
    (hf : ∀ r, mgr.fallback_provider r = .ok (f r)) :
    (manager_generate_text mgr (initState mgr) req).result = .ok (f req)
  ∧ (manager_generate_text mgr (initState mgr) req).activeCalls = mgr.max_retries
  ∧ (manager_generate_text mgr (initState mgr) req).fallbackCalls = 1
  ∧ get_current_provider (manager_generate_text mgr (initState mgr) req).state =
      mgr.fallback_provider_name
  ∧ (manager_generate_text mgr
        (manager_generate_text mgr (initState mgr) req).state req2).result =
      .ok (f req2)
  ∧ (manager_generate_text mgr
        (manager_generate_text mgr (initState mgr) req).state req2).state =
      (manager_generate_text mgr (initState mgr) req).state
  ∧ get_current_provider (reset_to_primary mgr
        (manager_generate_text mgr
          (manager_generate_text mgr (initState mgr) req).state req2).state) =
      mgr.primary_provider_name := by
  obtain ⟨k, hk⟩ : ∃ k, mgr.max_retries = k + 1 :=
    ⟨mgr.max_retries - 1, (Nat.succ_pred_eq_of_pos hmr).symm⟩
  have h1 : manager_generate_text mgr (initState mgr) req =
      { result := .ok (f req)
        state := { current_provider := mgr.fallback_provider
                   current_provider_name := mgr.fallback_provider_name }
        activeCalls := mgr.max_retries, fallbackCalls := 1 } := by
    unfold manager_generate_text
    rw [hk, generateLoop_fails_over mgr req errs (f req) hen hp (hf req) k 0]
    congr 1
    omega
  have h2 : ∀ st : MgrState, st.current_provider = mgr.fallback_provider →
      manager_generate_text mgr st req2 =
        { result := .ok (f req2), state := st, activeCalls := 1,
          fallbackCalls := 0 } := by
    intro st hst
    unfold manager_generate_text
    rw [hk]
    unfold generateLoop
    rw [hst, hf req2]
  rw [h1]
  refine ⟨rfl, rfl, rfl, rfl, ?_, ?_, rfl⟩
  · rw [h2 _ rfl]
  · rw [h2 _ rfl]

def W2_mgr : LLMManager :=
  { primary_provider := fun _ => .error "rate limited"
    fallback_provider := fun r => .ok ("fallback says: " ++ r.prompt)
    primary_provider_name := "openai"
    fallback_provider_name := "together"
    enable_fallback := true
    max_retries := 2 }

def W2_req : GenRequest := { prompt := "hello" }

def W2_req2 : GenRequest := { prompt := "again" }

/-- Witness for C2 at a concrete gateway with `maxRetries = 2`. -/
theorem C2_witness :
    (W2_mgr.enable_fallback = true ∧ 1 ≤ W2_mgr.max_retries) ∧
    ((manager_generate_text W2_mgr (initState W2_mgr) W2_req).result =
        .ok ("fallback says: " ++ W2_req.prompt)
    ∧ (manager_generate_text W2_mgr (initState W2_mgr) W2_req).activeCalls =
        W2_mgr.max_retries
    ∧ (manager_generate_text W2_mgr (initState W2_mgr) W2_req).fallbackCalls = 1
    ∧ get_current_provider
        (manager_generate_text W2_mgr (initState W2_mgr) W2_req).state =
        W2_mgr.fallback_provider_name
    ∧ (manager_generate_text W2_mgr
          (manager_generate_text W2_mgr (initState W2_mgr) W2_req).state
          W2_req2).result = .ok ("fallback says: " ++ W2_req2.prompt)
    ∧ (manager_generate_text W2_mgr
          (manager_generate_text W2_mgr (initState W2_mgr) W2_req).state
          W2_req2).state =
        (manager_generate_text W2_mgr (initState W2_mgr) W2_req).state
    ∧ get_current_provider (reset_to_primary W2_mgr
          (manager_generate_text W2_mgr
            (manager_generate_text W2_mgr (initState W2_mgr) W2_req).state
            W2_req2).state) = W2_mgr.primary_provider_name) :=
  ⟨⟨rfl, by decide⟩,
   C2_gateway_failover W2_mgr W2_req W2_req2 (fun _ => "rate limited")
     (fun r => "fallback says: " ++ r.prompt) rfl (by decide)
     (fun _ => rfl) (fun _ => rfl)⟩

/-! ### C7: cached JD analysis -/

/-- C7: starting from an empty cache and store, analysing the same JD text
twice within the TTL window issues one generation call on the first run and
zero on the second; the first run returns `cached = false` and writes the
result under the key `"jd_analysis:" ++ md5(trimmed text)` into the cache
(expiring at `t1 + 7*24*3600`) and a row keyed by the hash into the store;
the second run returns the identical result with `cached = true` and leaves
the state unchanged. -/
theorem C7_cached_second_call (llm_analyze : String → String → AnalysisDict)
    (md5hex : String → String) (id1 id2 : String) (t1 t2 : ℕ)
    (jd_text job_title : String) (company job_url user_id : Option String)
    (h50 : 50 ≤ (pyStrip jd_text).length) (ht : t2 ≤ t1 + jdTtl) :
    ∃ r1 row1,
      enhanced_execute llm_analyze md5hex id1 ⟨[], []⟩ t1 jd_text job_title
          company job_url user_id =
        { result := .ok r1
          state := ⟨[("jd_analysis:" ++ md5hex (pyStrip jd_text),
                      ⟨r1, t1 + jdTtl⟩)], [row1]⟩
          genCalls := 1 }
    ∧ r1.cached = false
    ∧ row1.jd_hash = md5hex (pyStrip jd_text)
    ∧ row1.raw_text = pyStrip jd_text
    ∧ row1.analysis = llm_analyze (pyStrip jd_text) job_title
    ∧ enhanced_execute llm_analyze md5hex id2
        (⟨[("jd_analysis:" ++ md5hex (pyStrip jd_text), ⟨r1, t1 + jdTtl⟩)],
          [row1]⟩ : EnhancedState) t2 jd_text job_title company job_url
        user_id =
        { result := .ok { r1 with cached := true }
          state := ⟨[("jd_analysis:" ++ md5hex (pyStrip jd_text),
                      ⟨r1, t1 + jdTtl⟩)], [row1]⟩
          genCalls := 0 } := by
  have hne : ¬ (jd_text = "" ∨ (pyStrip jd_text).length < 50) := by
    rintro (rfl | hlt)
    · rw [pyStrip_empty] at h50
      simp at h50
    · omega
  refine ⟨{ jd_id := id1
            top_keywords := (llm_analyze (pyStrip jd_text) job_title).top_keywords
            required_skills := (llm_analyze (pyStrip jd_text) job_title).required_skills
            preferred_skills := (llm_analyze (pyStrip jd_text) job_title).preferred_skills
            common_verbs := (llm_analyze (pyStrip jd_text) job_title).common_verbs
            common_nouns := (llm_analyze (pyStrip jd_text) job_title).common_nouns
            industry := (llm_analyze (pyStrip jd_text) job_title).industry.getD "unknown"
            cached := false },
          { id := id1
            user_id := user_id.getD "anonymous"
            company := company
            job_title := job_title
            job_url := job_url
            raw_text := pyStrip jd_text
            jd_hash := md5hex (pyStrip jd_text)
            analysis := llm_analyze (pyStrip jd_text) job_title },
          ?_, rfl, rfl, rfl, rfl, ?_⟩
  · unfold enhanced_execute
    rw [if_neg hne]
    rfl
  · have hlt : ¬ (t1 + jdTtl < t2) := not_lt.mpr ht
    simp only [enhanced_execute]
    rw [if_neg hne]
    simp [cache_get, List.find?_cons, hlt]

def W7_analysis : AnalysisDict :=
  { top_keywords := ["python", "sql"], industry := some "Tech" }

def W7_text : String :=
  "We are hiring a backend engineer to build scalable data services."

/-- Witness for C7 at a concrete text, hash function and pair of
timestamps. -/
theorem C7_witness :
    (50 ≤ (pyStrip W7_text).length ∧ (1000 : ℕ) ≤ 0 + jdTtl) ∧
    (∃ r1 row1,
      enhanced_execute (fun _ _ => W7_analysis) (fun _ => "9a31f2") "row-1"
          ⟨[], []⟩ 0 W7_text "Backend Engineer" none none none =
        { result := .ok r1
          state := ⟨[("jd_analysis:" ++ (fun _ : String => "9a31f2") (pyStrip W7_text),
                      ⟨r1, 0 + jdTtl⟩)], [row1]⟩
          genCalls := 1 }
    ∧ r1.cached = false
    ∧ row1.jd_hash = (fun _ : String => "9a31f2") (pyStrip W7_text)
    ∧ row1.raw_text = pyStrip W7_text
    ∧ row1.analysis = (fun _ _ : String => W7_analysis) (pyStrip W7_text) "Backend Engineer"
    ∧ enhanced_execute (fun _ _ => W7_analysis) (fun _ => "9a31f2") "row-2"
        (⟨[("jd_analysis:" ++ (fun _ : String => "9a31f2") (pyStrip W7_text),
            ⟨r1, 0 + jdTtl⟩)], [row1]⟩ : EnhancedState) 1000 W7_text
        "Backend Engineer" none none none =
        { result := .ok { r1 with cached := true }
          state := ⟨[("jd_analysis:" ++ (fun _ : String => "9a31f2") (pyStrip W7_text),
                      ⟨r1, 0 + jdTtl⟩)], [row1]⟩
          genCalls := 0 }) :=
  ⟨⟨by decide, by decide⟩,
   C7_cached_second_call (fun _ _ => W7_analysis) (fun _ => "9a31f2") "row-1"
     "row-2" 0 1000 W7_text "Backend Engineer" none none none (by decide)
     (by decide)⟩

/-! ### C8: no usedVerbs threading in the tailoring orchestrator -/

/-- C8 (amended): `TailorResumeUseCase.execute` calls the bullet optimizer
once per selected bullet with only `(bullet, jobDescription,
experienceContextLabel)` — `optimize_bullet` has no `usedVerbs` parameter —
so the i-th optimizer call (its prompt and its result) is a function of the
i-th selected (context, bullet) pair alone and receives nothing from
previously optimized bullets.  (A shared `used_verbs` accumulator exists
only in the separate `ResumeOptimizationEnhancedUseCase` pipeline, not
here.) -/
theorem C8_no_usedVerbs_threading (llm : LlmGen) (m m2 : MasterResume)
    (jd : JobDescription) (i : ℕ)
    (h : (tailor_selected_pairs m jd).get? i =
         (tailor_selected_pairs m2 jd).get? i) :
    (tailor_execute llm m jd).prompts.get? i =
      (tailor_execute llm m2 jd).prompts.get? i
  ∧ (tailor_execute llm m jd).resume.selected_bullet_optimizations.get? i =
      (tailor_execute llm m2 jd).resume.selected_bullet_optimizations.get? i
  ∧ (tailor_execute llm m jd).prompts.get? i =
      ((tailor_selected_pairs m jd).get? i).map
        (fun p => mkOptimizePrompt p.2.text (topKeywords jd) p.1) := by
  refine ⟨?_, ?_, ?_⟩
  · show ((tailor_selected_pairs m jd).map
        (fun p => mkOptimizePrompt p.2.text (topKeywords jd) p.1)).get? i =
      ((tailor_selected_pairs m2 jd).map
        (fun p => mkOptimizePrompt p.2.text (topKeywords jd) p.1)).get? i
    rw [List.get?_map, List.get?_map, h]
  · show ((tailor_selected_pairs m jd).map
        (fun p => optimize_bullet llm p.2 jd p.1)).get? i =
      ((tailor_selected_pairs m2 jd).map
        (fun p => optimize_bullet llm p.2 jd p.1)).get? i
    rw [List.get?_map, List.get?_map, h]
  · show ((tailor_selected_pairs m jd).map
        (fun p => mkOptimizePrompt p.2.text (topKeywords jd) p.1)).get? i =
      ((tailor_selected_pairs m jd).get? i).map
        (fun p => mkOptimizePrompt p.2.text (topKeywords jd) p.1)
    rw [List.get?_map]

def llmEcho : LlmGen := fun p _ _ _ => .ok p

def C8_jd : JobDescription := { id := "jd8" }

def C8_b1 : BulletPoint := { id := "b1", text := "Led team alpha" }

def C8_b1x : BulletPoint := { id := "b1", text := "Managed project gamma" }

def C8_b2 : BulletPoint := { id := "b2", text := "Wrote docs beta" }

def C8_exp (b : BulletPoint) : Experience :=
  { id := "e1", company := some "Acme", title := some "Dev",
    bullets := [b, C8_b2] }

def C8_m1 : MasterResume := { experiences := [C8_exp C8_b1] }

def C8_m2 : MasterResume := { experiences := [C8_exp C8_b1x] }

theorem C8_score_b1 : score_bullet C8_b1 C8_jd = 0 := by
  unfold score_bullet
  simp [C8_jd, show has_metrics C8_b1.text = false from by decide]

theorem C8_score_b1x : score_bullet C8_b1x C8_jd = 0 := by
  unfold score_bullet
  simp [C8_jd, show has_metrics C8_b1x.text = false from by decide]

theorem C8_score_b2 : score_bullet C8_b2 C8_jd = 0 := by
  unfold score_bullet
  simp [C8_jd, show has_metrics C8_b2.text = false from by decide]

theorem C8_pairs1 : tailor_selected_pairs C8_m1 C8_jd =
    [("Dev at Acme", C8_b1), ("Dev at Acme", C8_b2)] := by
  unfold tailor_selected_pairs select_content select_bullets
  simp [C8_m1, C8_exp, sortDesc, insertDesc, C8_score_b1, C8_score_b2,
    expContext, pyShowOpt]

theorem C8_pairs2 : tailor_selected_pairs C8_m2 C8_jd =
    [("Dev at Acme", C8_b1x), ("Dev at Acme", C8_b2)] := by
  unfold tailor_selected_pairs select_content select_bullets
  simp [C8_m2, C8_exp, sortDesc, insertDesc, C8_score_b1x, C8_score_b2,
    expContext, pyShowOpt]

set_option maxRecDepth 40000 in
/-- Counterexample to C8: run the orchestrator on two master resumes that
differ only in the text of the *first* selected bullet (so the verbs used by
the first optimized bullet differ), with a provider that echoes its prompt.
The prompt of the *second* optimizer call is identical in both runs — the
second call receives nothing (no used verbs) from the first optimized
bullet, contradicting the claimed `usedVerbs` threading — while the first
optimized texts do differ. -/
theorem C8_counterexample :
    (tailor_execute llmEcho C8_m1 C8_jd).prompts.get? 1 =
      (tailor_execute llmEcho C8_m2 C8_jd).prompts.get? 1
  ∧ ((tailor_execute llmEcho C8_m1 C8_jd).resume.selected_bullet_optimizations.get?
        0).map (fun o => o.optimized_text) ≠
    ((tailor_execute llmEcho C8_m2 C8_jd).resume.selected_bullet_optimizations.get?
        0).map (fun o => o.optimized_text) := by
  constructor
  · show ((tailor_selected_pairs C8_m1 C8_jd).map
        (fun p => mkOptimizePrompt p.2.text (topKeywords C8_jd) p.1)).get? 1 =
      ((tailor_selected_pairs C8_m2 C8_jd).map
        (fun p => mkOptimizePrompt p.2.text (topKeywords C8_jd) p.1)).get? 1
    rw [C8_pairs1, C8_pairs2]
    rfl
  · show (((tailor_selected_pairs C8_m1 C8_jd).map
        (fun p => optimize_bullet llmEcho p.2 C8_jd p.1)).get? 0).map
          (fun o => o.optimized_text) ≠
      (((tailor_selected_pairs C8_m2 C8_jd).map
        (fun p => optimize_bullet llmEcho p.2 C8_jd p.1)).get? 0).map
          (fun o => o.optimized_text)
    rw [C8_pairs1, C8_pairs2]
    decide

/-- Witness for the amended C8 theorem at the concrete runs of the
counterexample, with `i = 1`. -/
theorem C8_witness :
    ((tailor_selected_pairs C8_m1 C8_jd).get? 1 =
      (tailor_selected_pairs C8_m2 C8_jd).get? 1) ∧
    ((tailor_execute llmEcho C8_m1 C8_jd).prompts.get? 1 =
        (tailor_execute llmEcho C8_m2 C8_jd).prompts.get? 1
    ∧ (tailor_execute llmEcho C8_m1 C8_jd).resume.selected_bullet_optimizations.get?
          1 =
        (tailor_execute llmEcho C8_m2 C8_jd).resume.selected_bullet_optimizations.get?
          1
    ∧ (tailor_execute llmEcho C8_m1 C8_jd).prompts.get? 1 =
        ((tailor_selected_pairs C8_m1 C8_jd).get? 1).map
          (fun p => mkOptimizePrompt p.2.text (topKeywords C8_jd) p.1)) := by
  have h : (tailor_selected_pairs C8_m1 C8_jd).get? 1 =
      (tailor_selected_pairs C8_m2 C8_jd).get? 1 := by
    rw [C8_pairs1, C8_pairs2]
    rfl
  exact ⟨h, C8_no_usedVerbs_threading llmEcho C8_m1 C8_m2 C8_jd 1 h⟩

end JobCoach
